import Mathlib

/-!
Shallow embedding of src/interface.py (thlgrs/simpleGUI).

The program is a tkinter GUI around a Problem abstraction.  We embed:
  - Python numbers as `PyNum` (int over ℤ, float over ℚ);
  - `float(text)` as `parseFloat : String → Option ℚ` (none = ValueError);
  - f-string rendering of numbers as `PyNum.str` (Python prints an int 24
    as "24" and a float 24.0 as "24.0"; str(None) is "None");
  - the abstract `Problem` class and the concrete
    `RectangularVolumeProblem`, with raising methods returning `Except`;
  - the app shell state (`AppState`: held problem, figure contents, text
    panel contents), `update_plot_and_text` as a sequence of step
    functions that also record a `UiEvent` trace, and `on_submit` whose
    parameter loop assigns `parameters[k] = float(entry)` one key at a
    time inside the try block, exactly as the source loop does.
-/

set_option autoImplicit false

namespace SimpleGUI

/-- Python numeric values as they occur in this program: int or float.
A float is modelled by an exact rational. -/
inductive PyNum where
  | int : ℤ → PyNum
  | float : ℚ → PyNum
  deriving DecidableEq, Repr

def PyNum.toRat : PyNum → ℚ
  | .int n => (n : ℚ)
  | .float q => q

/-- Python multiplication: int * int is an int, anything involving a float
is a float. -/
def PyNum.mul : PyNum → PyNum → PyNum
  | .int m, .int n => .int (m * n)
  | a, b => .float (a.toRat * b.toRat)

def ratFloor (q : ℚ) : ℤ := q.num.fdiv (q.den : ℤ)

/-- Decimal digits of a value in [0,1), at most n of them, trailing zeros
dropped. -/
def fracDigits : ℕ → ℚ → String
  | 0, _ => ""
  | n + 1, q =>
    if q = 0 then ""
    else
      let d : ℤ := ratFloor (q * 10)
      toString d.toNat ++ fracDigits n (q * 10 - (d : ℚ))

/-- str() of a nonnegative Python float: integral values print with a
trailing ".0", otherwise the decimal expansion is printed (truncated to 17
fractional digits, the precision Python ever prints). -/
def floatReprNonneg (q : ℚ) : String :=
  if q.den = 1 then toString q.num ++ ".0"
  else toString (ratFloor q) ++ "." ++ fracDigits 17 (q - (ratFloor q : ℚ))

def floatRepr (q : ℚ) : String :=
  if q < 0 then "-" ++ floatReprNonneg (-q) else floatReprNonneg q

/-- Python str() of a number, as interpolated by the f-strings in the
source. -/
def PyNum.str : PyNum → String
  | .int n => toString n
  | .float q => floatRepr q

def isDigit (c : Char) : Bool := '0' ≤ c && c ≤ '9'

def digitsVal (l : List Char) : ℕ :=
  l.foldl (fun a c => a * 10 + (c.toNat - 48)) 0

/-- Mantissa of a Python float literal: digits, digits.digits, digits.,
or .digits. -/
def parseMantissa (l : List Char) : Option ℚ :=
  let ip := l.takeWhile isDigit
  match l.dropWhile isDigit with
  | [] => if ip.isEmpty then none else some (digitsVal ip : ℚ)
  | '.' :: fp =>
    if fp.all isDigit && !(ip.isEmpty && fp.isEmpty) then
      some ((digitsVal ip : ℚ) + (digitsVal fp : ℚ) / (10 : ℚ) ^ fp.length)
    else none
  | _ => none

/-- Exponent part of a float literal, after the e. -/
def parseExpPart (l : List Char) : Option ℤ :=
  match l with
  | '+' :: ds => if ds.all isDigit && !ds.isEmpty then some (digitsVal ds : ℤ) else none
  | '-' :: ds => if ds.all isDigit && !ds.isEmpty then some (-(digitsVal ds : ℤ)) else none
  | ds => if ds.all isDigit && !ds.isEmpty then some (digitsVal ds : ℤ) else none

def parseMag (l : List Char) : Option ℚ :=
  match l.findIdx? (fun c => c == 'e' || c == 'E') with
  | none => parseMantissa l
  | some i =>
    match parseMantissa (l.take i), parseExpPart (l.drop (i + 1)) with
    | some m, some e => some (m * (10 : ℚ) ^ e)
    | _, _ => none

/-- The whitespace Python's float() strips from both ends. -/
def isPySpace (c : Char) : Bool :=
  c == ' ' || c == '\t' || c == '\n' || c == '\r' || c == '\x0b' || c == '\x0c'

def pyStrip (l : List Char) : List Char :=
  ((l.dropWhile isPySpace).reverse.dropWhile isPySpace).reverse

/-- Python float(string): optional surrounding whitespace, optional sign,
then a decimal literal with optional fraction and exponent.  none models
float() raising ValueError.  (inf/nan literals and digit underscores,
which the claims never touch, are not modelled.) -/
def parseFloat (s : String) : Option ℚ :=
  match pyStrip s.toList with
  | '+' :: rest => parseMag rest
  | '-' :: rest => (parseMag rest).map (fun q => -q)
  | l => parseMag l

/-- The Python exceptions this program can raise. -/
inductive PyError where
  | valueError
  | keyError : String → PyError
  | attributeError : String → PyError
  | notImplementedError : String → PyError
  deriving DecidableEq, Repr

/-- One matplotlib call issued against the shared current figure. -/
inductive PlotCmd where
  | bar : List String → List (Option PyNum) → PlotCmd
  | ylabel : String → PlotCmd
  | ylimBottom : ℚ → PlotCmd
  deriving DecidableEq, Repr

/-- Python dict lookup on an insertion-ordered association list. -/
def assocGet {α : Type} (m : List (String × α)) (k : String) : Option α :=
  match m with
  | [] => none
  | (k', v) :: rest => if k' = k then some v else assocGet rest k

/-- The abstract Problem class (src/interface.py, class Problem). -/
structure Problem where
  name : String
  parameters : List (String × PyNum)
  deriving DecidableEq, Repr

/-- Base calculate_result: raise NotImplementedError(...). -/
def Problem.calculate_result (_ : Problem) : Except PyError Unit :=
  .error (.notImplementedError "Subclasses must implement the calculate_result method")

/-- Base plot_result: the body is pass, so it draws nothing and raises
nothing. -/
def Problem.plot_result (_ : Problem) : Except PyError (List PlotCmd) :=
  .ok []

/-- Base text_result: raise NotImplementedError(...). -/
def Problem.text_result (_ : Problem) : Except PyError String :=
  .error (.notImplementedError "Subclasses must implement the text_result method")

/-- The concrete RectangularVolumeProblem subclass, carrying the result
attribute its constructor adds (None until first computed). -/
structure RectangularVolumeProblem where
  name : String
  parameters : List (String × PyNum)
  result : Option PyNum
  deriving DecidableEq, Repr

namespace RectangularVolumeProblem

/-- The constructor: name "Rectangular Volume", parameters
length/width/height all 1.0, result None. -/
def init : RectangularVolumeProblem :=
  { name := "Rectangular Volume"
    parameters := [("length", .float 1), ("width", .float 1), ("height", .float 1)]
    result := none }

/-- calculate_result: self.result = parameters['length'] *
parameters['width'] * parameters['height'].  A missing key raises
KeyError (never the case in the shipped app). -/
def calculate_result (p : RectangularVolumeProblem) :
    Except PyError RectangularVolumeProblem :=
  match assocGet p.parameters "length" with
  | none => .error (.keyError "length")
  | some l =>
    match assocGet p.parameters "width" with
    | none => .error (.keyError "width")
    | some w =>
      match assocGet p.parameters "height" with
      | none => .error (.keyError "height")
      | some h => .ok { p with result := some ((l.mul w).mul h) }

/-- plot_result: plt.bar(['Volume'], [self.result]); plt.ylabel('Volume');
plt.ylim(bottom=0). -/
def plotCmds (p : RectangularVolumeProblem) : List PlotCmd :=
  [.bar ["Volume"] [p.result], .ylabel "Volume", .ylimBottom 0]

/-- text_result: the f-string "Volume = {self.result}"; str(None) is
"None". -/
def text_result (p : RectangularVolumeProblem) : String :=
  "Volume = " ++ (match p.result with
    | none => "None"
    | some v => v.str)

end RectangularVolumeProblem

/-- The widget state of ProblemSolverApp that the claims mention: the held
problem, the contents of the matplotlib figure, and the contents of the
result_text panel. -/
structure AppState where
  problem : RectangularVolumeProblem
  figure : List PlotCmd
  resultText : String
  deriving DecidableEq, Repr

/-- The externally visible actions of update_plot_and_text, in program
order. -/
inductive UiEvent where
  | clearFigure
  | calcResult
  | plotResult
  | canvasDraw
  | replaceText : String → UiEvent
  deriving DecidableEq, Repr

/-- plt.clf(): the shared figure is emptied. -/
def stepClf (s : AppState × List UiEvent) : AppState × List UiEvent :=
  ({ s.1 with figure := [] }, s.2 ++ [.clearFigure])

/-- self.problem.calculate_result() -/
def stepCalc (s : AppState × List UiEvent) :
    Except PyError (AppState × List UiEvent) :=
  match s.1.problem.calculate_result with
  | .error e => .error e
  | .ok p => .ok ({ s.1 with problem := p }, s.2 ++ [.calcResult])

/-- self.problem.plot_result(): draws the bar chart onto the current
figure. -/
def stepPlot (s : AppState × List UiEvent) : AppState × List UiEvent :=
  ({ s.1 with figure := s.1.figure ++ s.1.problem.plotCmds },
   s.2 ++ [.plotResult])

/-- self.canvas.draw() -/
def stepDraw (s : AppState × List UiEvent) : AppState × List UiEvent :=
  (s.1, s.2 ++ [.canvasDraw])

/-- result_text.delete(1.0, END) then insert(END, text_result()): the
panel contents are fully replaced by the returned string. -/
def stepText (s : AppState × List UiEvent) : AppState × List UiEvent :=
  ({ s.1 with resultText := s.1.problem.text_result },
   s.2 ++ [.replaceText s.1.problem.text_result])

/-- update_plot_and_text (src/interface.py lines 168-188), with the trace
of actions it performed. -/
def update_plot_and_text (a : AppState) :
    Except PyError (AppState × List UiEvent) :=
  match stepCalc (stepClf (a, [])) with
  | .error e => .error e
  | .ok s => .ok (stepText (stepDraw (stepPlot s)))

/-- The parameter-update loop of on_submit: for each key of
problem.parameters in order, read that key's entry text and assign
float(text) to parameters[key].  A float() failure raises ValueError on
the spot, leaving the keys already processed updated and the rest
untouched; a missing entry widget raises AttributeError. -/
def updateLoop (params : List (String × PyNum))
    (entries : List (String × String)) :
    List (String × PyNum) × Option PyError :=
  match params with
  | [] => ([], none)
  | (k, v) :: rest =>
    match assocGet entries k with
    | none => ((k, v) :: rest, some (.attributeError (k ++ "_entry")))
    | some s =>
      match parseFloat s with
      | none => ((k, v) :: rest, some .valueError)
      | some q =>
        let r := updateLoop rest entries
        ((k, .float q) :: r.1, r.2)

/-- on_submit (src/interface.py lines 152-166): run the update loop, then
update_plot_and_text, with any ValueError in that block caught and shown
as a fixed messagebox text.  Returns the new state and the message
displayed, if any; other exceptions propagate. -/
def on_submit (a : AppState) (entries : List (String × String)) :
    Except PyError (AppState × Option String) :=
  let r := updateLoop a.problem.parameters entries
  let a' : AppState := { a with problem := { a.problem with parameters := r.1 } }
  match r.2 with
  | some .valueError =>
    .ok (a', some "Please enter valid numeric values for parameters")
  | some e => .error e
  | none =>
    match update_plot_and_text a' with
    | .ok s => .ok (s.1, none)
    | .error .valueError =>
      .ok (a', some "Please enter valid numeric values for parameters")
    | .error e => .error e

/-- The parse outcome of the entry field for key k. -/
def entryParse (entries : List (String × String)) (k : String) : Option ℚ :=
  (assocGet entries k).bind parseFloat

/-- The parameter list with every value replaced by the float parsed from
its entry field (meaningful when every entry parses). -/
def parsedParams (entries : List (String × String))
    (params : List (String × PyNum)) : List (String × PyNum) :=
  params.map (fun kv => (kv.1, PyNum.float ((entryParse entries kv.1).getD 0)))

/-- One user-or-API operation on the running shell. -/
inductive ShellOp where
  | submit : List (String × String) → ShellOp
  | refresh
  | calcDirect
  deriving Repr

def runOp (a : AppState) : ShellOp → Except PyError AppState
  | .submit entries => (on_submit a entries).map Prod.fst
  | .refresh => (update_plot_and_text a).map Prod.fst
  | .calcDirect => (a.problem.calculate_result).map fun p => { a with problem := p }

def runOps (a : AppState) : List ShellOp → Except PyError AppState
  | [] => .ok a
  | op :: ops =>
    match runOp a op with
    | .error e => .error e
    | .ok a' => runOps a' ops

/-- The app as launched: default RectangularVolumeProblem, empty figure
and empty text panel. -/
def app0 : AppState :=
  { problem := RectangularVolumeProblem.init, figure := [], resultText := "" }

/-- Entry texts where the width field does not parse as a float. -/
def entriesBad : List (String × String) :=
  [("length", "2"), ("width", "abc"), ("height", "3")]

/-- Entry texts where every field parses as a float. -/
def entriesGood : List (String × String) :=
  [("length", "2"), ("width", "3"), ("height", "4")]

/-- The problem state with integer parameters 2, 3, 4, as set by a direct
API mutation of problem.parameters. -/
def prob234 : RectangularVolumeProblem :=
  { RectangularVolumeProblem.init with
    parameters := [("length", .int 2), ("width", .int 3), ("height", .int 4)] }

/-! ## Helper lemmas -/

theorem calc_ok_iff (p p' : RectangularVolumeProblem) :
    p.calculate_result = .ok p' ↔
      ∃ l w h, assocGet p.parameters "length" = some l ∧
        assocGet p.parameters "width" = some w ∧
        assocGet p.parameters "height" = some h ∧
        p' = { p with result := some ((l.mul w).mul h) } := by
  unfold RectangularVolumeProblem.calculate_result
  rcases hL : assocGet p.parameters "length" with _ | l <;>
    rcases hW : assocGet p.parameters "width" with _ | w <;>
      rcases hH : assocGet p.parameters "height" with _ | h <;>
        simp [hL, hW, hH, eq_comm]

theorem calc_preserves (p p' : RectangularVolumeProblem)
    (h : p.calculate_result = .ok p') :
    p'.name = p.name ∧ p'.parameters = p.parameters := by
  rcases (calc_ok_iff p p').1 h with ⟨l, w, ht, _, _, _, rfl⟩
  exact ⟨rfl, rfl⟩

theorem updateLoop_keys (params : List (String × PyNum))
    (entries : List (String × String)) :
    (updateLoop params entries).1.map Prod.fst = params.map Prod.fst := by
  induction params with
  | nil => rfl
  | cons kv rest ih =>
    obtain ⟨k, v⟩ := kv
    rcases hs : assocGet entries k with _ | s
    · simp [updateLoop, hs]
    · rcases hq : parseFloat s with _ | q
      · simp [updateLoop, hs, hq]
      · simp [updateLoop, hs, hq, ih]

theorem updateLoop_all_parse (params : List (String × PyNum))
    (entries : List (String × String))
    (hall : ∀ kv ∈ params, (entryParse entries kv.1).isSome) :
    updateLoop params entries = (parsedParams entries params, none) := by
  induction params with
  | nil => rfl
  | cons kv rest ih =>
    obtain ⟨k, v⟩ := kv
    have hk := hall (k, v) (List.mem_cons_self _ _)
    unfold entryParse at hk
    rcases hs : assocGet entries k with _ | s
    · rw [hs] at hk; simp at hk
    · rw [hs] at hk
      rcases hq : parseFloat s with _ | q
      · simp [hq] at hk
      · have ihr := ih (fun kv hm => hall kv (List.mem_cons_of_mem _ hm))
        simp [updateLoop, hs, hq, ihr, entryParse, parsedParams]

theorem assocGet_map_keys (params : List (String × PyNum))
    (f : String → PyNum) (k : String) :
    assocGet (params.map (fun kv => (kv.1, f kv.1))) k =
      if k ∈ params.map Prod.fst then some (f k) else none := by
  induction params with
  | nil => rfl
  | cons kv rest ih =>
    obtain ⟨k', v⟩ := kv
    by_cases hk : k' = k
    · subst hk
      simp [assocGet]
    · have hmem : (k ∈ k' :: List.map Prod.fst rest) ↔ k ∈ List.map Prod.fst rest := by
        simp [List.mem_cons, Ne.symm hk]
      simp only [assocGet, hk, if_false, ih, List.map_cons]
      exact (if_congr hmem rfl rfl).symm

theorem updateLoop_first_fail (params : List (String × PyNum))
    (entries : List (String × String))
    (hall : ∀ kv ∈ params, (assocGet entries kv.1).isSome)
    (hex : ∃ kv ∈ params, entryParse entries kv.1 = none) :
    ∃ pre kv post,
      params = pre ++ kv :: post ∧
      (∀ kv' ∈ pre, (entryParse entries kv'.1).isSome) ∧
      entryParse entries kv.1 = none ∧
      updateLoop params entries =
        (parsedParams entries pre ++ kv :: post, some PyError.valueError) := by
  induction params with
  | nil => simp at hex
  | cons kv0 rest ih =>
    obtain ⟨k, v⟩ := kv0
    have hk := hall (k, v) (List.mem_cons_self _ _)
    rcases hs : assocGet entries k with _ | s
    · rw [hs] at hk; simp at hk
    · rcases hq : parseFloat s with _ | q
      · exact ⟨[], (k, v), rest, rfl, by simp,
          by simp [entryParse, hs, hq], by simp [updateLoop, hs, hq, parsedParams]⟩
      · have hkparse : entryParse entries k = some q := by simp [entryParse, hs, hq]
        have hex' : ∃ kv ∈ rest, entryParse entries kv.1 = none := by
          rcases hex with ⟨kv1, hm, hn⟩
          rcases List.mem_cons.1 hm with rfl | hm'
          · have := hkparse.symm.trans hn
            simp at this
          · exact ⟨kv1, hm', hn⟩
        obtain ⟨pre, kvf, post, hsplit, hpre, hfail, hloop⟩ :=
          ih (fun kv hm => hall kv (List.mem_cons_of_mem _ hm)) hex'
        refine ⟨(k, v) :: pre, kvf, post, by rw [List.cons_append, hsplit], ?_, hfail, ?_⟩
        · intro kv' hm
          rcases List.mem_cons.1 hm with rfl | hm'
          · simp [hkparse]
          · exact hpre kv' hm'
        · simp [updateLoop, hs, hq, hloop, hkparse, parsedParams]

theorem update_plot_and_text_ok (a : AppState) (p' : RectangularVolumeProblem)
    (h : a.problem.calculate_result = .ok p') :
    update_plot_and_text a =
      .ok ({ problem := p', figure := p'.plotCmds, resultText := p'.text_result },
        [.clearFigure, .calcResult, .plotResult, .canvasDraw,
         .replaceText p'.text_result]) := by
  simp [update_plot_and_text, stepClf, stepCalc, stepPlot, stepDraw, stepText, h]

theorem update_plot_and_text_err (a : AppState) (e : PyError)
    (h : a.problem.calculate_result = .error e) :
    update_plot_and_text a = .error e := by
  simp [update_plot_and_text, stepClf, stepCalc, h]

theorem update_params_eq (a : AppState) (s : AppState × List UiEvent)
    (h : update_plot_and_text a = .ok s) :
    s.1.problem.parameters = a.problem.parameters := by
  rcases hc : a.problem.calculate_result with e | p
  · rw [update_plot_and_text_err a e hc] at h; cases h
  · rw [update_plot_and_text_ok a p hc] at h
    injection h with h1
    rw [← h1]
    exact (calc_preserves _ _ hc).2

theorem on_submit_keys (a : AppState) (entries : List (String × String))
    (x : AppState × Option String) (h : on_submit a entries = .ok x) :
    x.1.problem.parameters.map Prod.fst = a.problem.parameters.map Prod.fst := by
  have hkeys := updateLoop_keys a.problem.parameters entries
  rcases hr : updateLoop a.problem.parameters entries with ⟨ps, err⟩
  rw [hr] at hkeys
  simp only [on_submit, hr] at h
  rcases err with _ | e
  · rcases hu : update_plot_and_text
        { a with problem := { a.problem with parameters := ps } } with e | s
    · rw [hu] at h
      rcases e with _ | k | m | m
      · cases h
        exact hkeys
      · cases h
      · cases h
      · cases h
    · rw [hu] at h
      injection h with h1
      rw [← h1]
      have := update_params_eq _ _ hu
      simp only [this]
      exact hkeys
  · rcases e with _ | k | m | m
    · cases h
      exact hkeys
    · cases h
    · cases h
    · cases h

theorem runOp_keys (a : AppState) (op : ShellOp) (a' : AppState)
    (h : runOp a op = .ok a') :
    a'.problem.parameters.map Prod.fst = a.problem.parameters.map Prod.fst := by
  cases op with
  | submit entries =>
    rcases ho : on_submit a entries with e | x
    · simp [runOp, Except.map, ho] at h
    · simp only [runOp, Except.map, ho] at h
      injection h with h1
      rw [← h1]
      exact on_submit_keys a entries x ho
  | refresh =>
    rcases ho : update_plot_and_text a with e | s
    · simp [runOp, Except.map, ho] at h
    · simp only [runOp, Except.map, ho] at h
      injection h with h1
      rw [← h1]
      simp only [update_params_eq _ _ ho]
  | calcDirect =>
    rcases hc : a.problem.calculate_result with e | p
    · simp [runOp, Except.map, hc] at h
    · simp only [runOp, Except.map, hc] at h
      injection h with h1
      rw [← h1]
      simp only [(calc_preserves _ _ hc).2]

/-! ## The claims -/

/-- C3: for a RectangularVolumeProblem whose parameters are length=2,
width=3, height=4 (Python ints, as set by direct API mutation), after
calculate_result the stored result equals 24 and text_result() returns
exactly "Volume = 24".  (Had the values been the floats 2.0/3.0/4.0, the
text would be "Volume = 24.0".) -/
theorem rect234_result_and_text :
    ∃ p', prob234.calculate_result = .ok p' ∧
      p'.result = some (.int 24) ∧ p'.text_result = "Volume = 24" := by
  refine ⟨_, rfl, by decide, by decide⟩

/-- C4: calculate_result is idempotent: a second call with the parameters
unchanged returns exactly the state the first call produced. -/
theorem calculate_result_idempotent (p p' : RectangularVolumeProblem)
    (h : p.calculate_result = .ok p') : p'.calculate_result = .ok p' := by
  rcases (calc_ok_iff p p').1 h with ⟨l, w, ht, hL, hW, hH, rfl⟩
  exact (calc_ok_iff _ _).2 ⟨l, w, ht, hL, hW, hH, rfl⟩

theorem calculate_result_idempotent_witness :
    ∃ p', RectangularVolumeProblem.init.calculate_result = .ok p' ∧
      p'.calculate_result = .ok p' :=
  ⟨_, rfl, calculate_result_idempotent RectangularVolumeProblem.init _ rfl⟩

/-- C5: default construction yields parameters length/width/height, each
1.0, in that insertion order; after one calculate_result the result is the
float 1.0 and text_result() returns "Volume = 1.0". -/
theorem default_instantiation_cycle :
    RectangularVolumeProblem.init.parameters =
      [("length", PyNum.float 1), ("width", PyNum.float 1), ("height", PyNum.float 1)] ∧
    ∃ p', RectangularVolumeProblem.init.calculate_result = .ok p' ∧
      p'.result = some (PyNum.float 1) ∧ p'.text_result = "Volume = 1.0" := by
  have hv : ((PyNum.float 1).mul (PyNum.float 1)).mul (PyNum.float 1) = PyNum.float 1 := by
    simp [PyNum.mul, PyNum.toRat]
  have hcalc : RectangularVolumeProblem.init.calculate_result =
      .ok { RectangularVolumeProblem.init with result := some (PyNum.float 1) } := by
    have h0 : RectangularVolumeProblem.init.calculate_result =
        .ok { RectangularVolumeProblem.init with
              result := some (((PyNum.float 1).mul (PyNum.float 1)).mul (PyNum.float 1)) } := rfl
    rw [h0, hv]
  exact ⟨rfl, _, hcalc, rfl, by decide⟩

/-- C6: on the abstract Problem type, calculate_result and text_result
raise NotImplementedError, while the base plot_result is a no-op that
draws nothing and raises nothing. -/
theorem base_problem_contract (p : Problem) :
    p.calculate_result =
      .error (.notImplementedError "Subclasses must implement the calculate_result method") ∧
    p.text_result =
      .error (.notImplementedError "Subclasses must implement the text_result method") ∧
    p.plot_result = .ok [] :=
  ⟨rfl, rfl, rfl⟩

/-- C7: every successful refresh performs, in exactly this order: clear
the prior figure, calculate_result, plot_result, canvas draw, and the full
replacement of the text panel by text_result()'s string. -/
theorem refresh_display_order (a : AppState) (p' : RectangularVolumeProblem)
    (h : a.problem.calculate_result = .ok p') :
    update_plot_and_text a =
      .ok ({ problem := p', figure := p'.plotCmds, resultText := p'.text_result },
        [.clearFigure, .calcResult, .plotResult, .canvasDraw,
         .replaceText p'.text_result]) :=
  update_plot_and_text_ok a p' h

theorem refresh_display_order_witness :
    ∃ p', app0.problem.calculate_result = .ok p' ∧
      update_plot_and_text app0 =
        .ok ({ problem := p', figure := p'.plotCmds, resultText := p'.text_result },
          [.clearFigure, .calcResult, .plotResult, .canvasDraw,
           .replaceText p'.text_result]) :=
  ⟨_, rfl, refresh_display_order app0 _ rfl⟩

/-- C9: a freshly constructed RectangularVolumeProblem has result None,
and text_result() in that state raises nothing and returns exactly
"Volume = None". -/
theorem fresh_result_none_text :
    RectangularVolumeProblem.init.result = none ∧
    RectangularVolumeProblem.init.text_result = "Volume = None" :=
  ⟨rfl, rfl⟩

/-- C10: calculate_result mutates only the result attribute: the name and
the parameters mapping (keys and values) are unchanged. -/
theorem calculate_result_mutates_only_result (p p' : RectangularVolumeProblem)
    (h : p.calculate_result = .ok p') :
    p'.name = p.name ∧ p'.parameters = p.parameters :=
  calc_preserves p p' h

theorem calculate_result_mutates_only_result_witness :
    ∃ p', RectangularVolumeProblem.init.calculate_result = .ok p' ∧
      p'.name = RectangularVolumeProblem.init.name ∧
      p'.parameters = RectangularVolumeProblem.init.parameters :=
  ⟨_, rfl, calculate_result_mutates_only_result RectangularVolumeProblem.init _ rfl⟩

/-- C1 as stated is false on the code: submitting with the width field
"abc" (unparseable) after a length field "2" displays the fixed error
message, yet parameters['length'] has already been overwritten with 2.0 —
the parameters are not left byte-for-byte unchanged. -/
theorem submit_not_all_or_nothing_cex :
    (∃ kv ∈ app0.problem.parameters, entryParse entriesBad kv.1 = none) ∧
    ∃ x, on_submit app0 entriesBad = .ok x ∧
      x.2 = some "Please enter valid numeric values for parameters" ∧
      x.1.problem.parameters ≠ app0.problem.parameters := by
  exact ⟨by decide, _, rfl, rfl, by decide⟩

/-- C1 corrected: when at least one entry fails to parse (and every
parameter has an entry field), submit shows exactly the fixed error
message and leaves the figure and the text panel untouched, but the
parameter update is not all-or-nothing: the parameters strictly before the
first unparseable field are set to their parsed values, while the first
failing parameter and every later one keep their previous values. -/
theorem submit_invalid_partial_update (a : AppState)
    (entries : List (String × String))
    (hall : ∀ kv ∈ a.problem.parameters, (assocGet entries kv.1).isSome)
    (hex : ∃ kv ∈ a.problem.parameters, entryParse entries kv.1 = none) :
    ∃ pre kv post,
      a.problem.parameters = pre ++ kv :: post ∧
      (∀ kv' ∈ pre, (entryParse entries kv'.1).isSome) ∧
      entryParse entries kv.1 = none ∧
      on_submit a entries =
        .ok ({ a with problem :=
                 { a.problem with parameters := parsedParams entries pre ++ kv :: post } },
             some "Please enter valid numeric values for parameters") := by
  obtain ⟨pre, kv, post, hsplit, hpre, hfail, hloop⟩ :=
    updateLoop_first_fail a.problem.parameters entries hall hex
  exact ⟨pre, kv, post, hsplit, hpre, hfail, by simp only [on_submit, hloop]⟩

theorem submit_invalid_partial_update_witness :
    ((∀ kv ∈ app0.problem.parameters, (assocGet entriesBad kv.1).isSome) ∧
      ∃ kv ∈ app0.problem.parameters, entryParse entriesBad kv.1 = none) ∧
    ∃ pre kv post,
      app0.problem.parameters = pre ++ kv :: post ∧
      (∀ kv' ∈ pre, (entryParse entriesBad kv'.1).isSome) ∧
      entryParse entriesBad kv.1 = none ∧
      on_submit app0 entriesBad =
        .ok ({ app0 with problem :=
                 { app0.problem with parameters := parsedParams entriesBad pre ++ kv :: post } },
             some "Please enter valid numeric values for parameters") :=
  ⟨⟨by decide, by decide⟩,
   submit_invalid_partial_update app0 entriesBad (by decide) (by decide)⟩

/-- C2: when every entry field parses as a float, submit succeeds with no
error message, problem.parameters becomes exactly the parsed field values,
and calculate_result has stored result = length * width * height computed
from those current values. -/
theorem submit_valid_updates_params_and_result (a : AppState)
    (entries : List (String × String))
    (hall : ∀ kv ∈ a.problem.parameters, (entryParse entries kv.1).isSome)
    (ql qw qh : ℚ)
    (hl : "length" ∈ a.problem.parameters.map Prod.fst)
    (hw : "width" ∈ a.problem.parameters.map Prod.fst)
    (hh : "height" ∈ a.problem.parameters.map Prod.fst)
    (el : entryParse entries "length" = some ql)
    (ew : entryParse entries "width" = some qw)
    (eh : entryParse entries "height" = some qh) :
    ∃ a', on_submit a entries = .ok (a', none) ∧
      a'.problem.parameters = parsedParams entries a.problem.parameters ∧
      a'.problem.result = some (.float (ql * qw * qh)) := by
  have hloop := updateLoop_all_parse a.problem.parameters entries hall
  have hgl : assocGet (parsedParams entries a.problem.parameters) "length"
      = some (PyNum.float ql) := by
    have h0 := assocGet_map_keys a.problem.parameters
      (fun k => PyNum.float ((entryParse entries k).getD 0)) "length"
    rw [if_pos hl] at h0
    simpa [el, parsedParams] using h0
  have hgw : assocGet (parsedParams entries a.problem.parameters) "width"
      = some (PyNum.float qw) := by
    have h0 := assocGet_map_keys a.problem.parameters
      (fun k => PyNum.float ((entryParse entries k).getD 0)) "width"
    rw [if_pos hw] at h0
    simpa [ew, parsedParams] using h0
  have hgh : assocGet (parsedParams entries a.problem.parameters) "height"
      = some (PyNum.float qh) := by
    have h0 := assocGet_map_keys a.problem.parameters
      (fun k => PyNum.float ((entryParse entries k).getD 0)) "height"
    rw [if_pos hh] at h0
    simpa [eh, parsedParams] using h0
  have hmulv : ((PyNum.float ql).mul (PyNum.float qw)).mul (PyNum.float qh)
      = PyNum.float (ql * qw * qh) := by
    simp [PyNum.mul, PyNum.toRat]
  have hcalc :
      RectangularVolumeProblem.calculate_result
          { a.problem with parameters := parsedParams entries a.problem.parameters } =
        .ok { a.problem with
                parameters := parsedParams entries a.problem.parameters,
                result := some (PyNum.float (ql * qw * qh)) } := by
    apply (calc_ok_iff _ _).2
    refine ⟨PyNum.float ql, PyNum.float qw, PyNum.float qh, hgl, hgw, hgh, ?_⟩
    rw [hmulv]
  simp only [on_submit, hloop]
  rw [update_plot_and_text_ok
    { a with problem :=
        { a.problem with parameters := parsedParams entries a.problem.parameters } }
    _ hcalc]
  exact ⟨_, rfl, rfl, rfl⟩

theorem submit_valid_updates_params_and_result_witness :
    ((∀ kv ∈ app0.problem.parameters, (entryParse entriesGood kv.1).isSome) ∧
      "length" ∈ app0.problem.parameters.map Prod.fst ∧
      "width" ∈ app0.problem.parameters.map Prod.fst ∧
      "height" ∈ app0.problem.parameters.map Prod.fst ∧
      entryParse entriesGood "length" = some 2 ∧
      entryParse entriesGood "width" = some 3 ∧
      entryParse entriesGood "height" = some 4) ∧
    ∃ a', on_submit app0 entriesGood = .ok (a', none) ∧
      a'.problem.parameters = parsedParams entriesGood app0.problem.parameters ∧
      a'.problem.result = some (.float ((2 : ℚ) * 3 * 4)) :=
  ⟨⟨by decide, by decide, by decide, by decide, by decide, by decide, by decide⟩,
   submit_valid_updates_params_and_result app0 entriesGood (by decide) 2 3 4
     (by decide) (by decide) (by decide) (by decide) (by decide) (by decide)⟩

/-- C8: the key list (set and insertion order) of problem.parameters is
invariant under every sequence of shell operations — submits, display
refreshes and direct calculate_result calls; only the values change. -/
theorem parameter_keys_invariant (a : AppState) (ops : List ShellOp)
    (a' : AppState) (h : runOps a ops = .ok a') :
    a'.problem.parameters.map Prod.fst = a.problem.parameters.map Prod.fst := by
  induction ops generalizing a with
  | nil =>
    simp only [runOps] at h
    injection h with h1
    rw [← h1]
  | cons op ops ih =>
    simp only [runOps] at h
    rcases ho : runOp a op with e | a1
    · rw [ho] at h; cases h
    · rw [ho] at h
      exact (ih a1 h).trans (runOp_keys a op a1 ho)

theorem parameter_keys_invariant_witness :
    ∃ a', runOps app0
        [ShellOp.submit entriesGood, ShellOp.refresh, ShellOp.calcDirect] = .ok a' ∧
      a'.problem.parameters.map Prod.fst = app0.problem.parameters.map Prod.fst :=
  ⟨_, rfl, parameter_keys_invariant app0
    [ShellOp.submit entriesGood, ShellOp.refresh, ShellOp.calcDirect] _ rfl⟩

end SimpleGUI
